import Mathlib

/-!
Verification of the quicklink prefetch scheduling and dispatch engine.

Shallow embedding of the two source modules:
  - src/prefetch.mjs : strategy selection, network-condition gating, dedup
    cache, and the three fetch strategies.
  - src/index.mjs    : the entry point, option merging, the intersection
    observer callback, and the per-URL loader-function registry.

Modelling conventions.  The browser runtime is an explicit record of the
capabilities the source probes (document present, relList.supports,
navigator.connection, self.fetch, head element, elements named "script").
A network interaction is an abstract behaviour: either an HTTP response
with a status arrives, or the transport fails (network error at the XHR
or fetch level, error event at the link element level).  A JS promise is
modelled by its eventual state: resolved, rejected, or pending forever
(a promise whose executor registered no handler for the event that
actually occurred never settles).  Per ECMA-262, an exception thrown
inside a promise executor rejects the promise; this is modelled
explicitly for the link strategy, whose container lookup can throw.
-/

/-- State of a JS promise once the modelled network behaviour has played
out: it resolved, it rejected, or it never settles. -/
inductive SettleResult where
  | resolved
  | rejected
  | pending
deriving DecidableEq

/-- Return behaviour of an async function: it returned normally
(fulfilled), or it is stuck forever awaiting a promise that never
settles.  The prefetcher swallows strategy rejections, so a rejected
case never arises for it; keeping the embedding as a total function
into this type records that fact. -/
inductive AsyncReturn where
  | fulfilled
  | stuck
deriving DecidableEq

/-- Abstract behaviour of one network interaction: an HTTP response with
the given status code arrives, or the transport itself fails (network
error, or the error event of a link element). -/
inductive NetBehavior where
  | response (status : Nat)
  | failure
deriving DecidableEq

/-- navigator.connection, when the runtime exposes network information.
effectiveType is optional because the attribute may be undefined, which
the source defends against with a fallback to the empty string. -/
structure Connection where
  effectiveType : Option String
  saveData : Bool

/-- The browser capabilities probed by src/prefetch.mjs.
relListSupports is some f when document.createElement("link") yields a
link whose relList exists and whose relList.supports is a function, f
being that function; none otherwise (also standing for the try/catch
path, which likewise yields false).  connection is some c exactly when
the string "connection" is a property of navigator.  hasFetch is the
test self.fetch !== undefined.  hasElementNamedScript models whether
document.getElementsByName("script") is nonempty with a parent node;
note the source queries by the name attribute, not by tag name. -/
structure Env where
  hasDocument : Bool
  relListSupports : Option (String → Bool)
  connection : Option Connection
  hasFetch : Bool
  hasHead : Bool
  hasElementNamedScript : Bool

/-- Scan for sub as a contiguous subsequence of a character list. -/
def containsSeq (sub : List Char) : List Char → Bool
  | [] => sub.isEmpty
  | c :: cs => sub.isPrefixOf (c :: cs) || containsSeq sub cs

/-- JS String.prototype.includes, as used on the effective connection
type string: substring containment. -/
def jsIncludes (s sub : String) : Bool :=
  containsSeq sub.toList s.toList

/-- support(feature) from src/prefetch.mjs lines 27-39.  Returns false
when document is undefined; otherwise returns relList.supports(feature)
when relList exists with a supports function.  The source returns
undefined (falsy) when relList is absent and false when supports
throws; both are modelled as false, matching the only use of the value,
as the condition of a ternary. -/
def support (env : Env) (feature : String) : Bool :=
  if env.hasDocument = false then
    false
  else
    match env.relListSupports with
    | some f => f feature
    | none => false

/-- Outcome of running the promise executor of linkPrefetchStrategy:
it called resolve, called reject, or threw an exception. -/
inductive ExecOutcome where
  | callResolve
  | callReject
  | throwErr
deriving DecidableEq

/-- The executor body of linkPrefetchStrategy (src/prefetch.mjs lines
46-65).  Without a document it calls reject.  With a container (the
head element, or the parent of the first element named "script") it
appends the link, whose load event later calls resolve and whose error
event calls reject.  With neither container, indexing the empty
getElementsByName result yields undefined and reading parentNode throws
a TypeError out of the executor. -/
def linkPrefetchExec (env : Env) (net : NetBehavior) : ExecOutcome :=
  if env.hasDocument = false then
    ExecOutcome.callReject
  else if env.hasHead || env.hasElementNamedScript then
    match net with
    | NetBehavior.response _ => ExecOutcome.callResolve
    | NetBehavior.failure => ExecOutcome.callReject
  else
    ExecOutcome.throwErr

/-- ECMA-262 semantics of new Promise(executor): calling resolve
resolves, calling reject rejects, and an exception escaping the
executor rejects the promise with the thrown value. -/
def promiseOfExecutor : ExecOutcome → SettleResult
  | ExecOutcome.callResolve => SettleResult.resolved
  | ExecOutcome.callReject => SettleResult.rejected
  | ExecOutcome.throwErr => SettleResult.rejected

/-- linkPrefetchStrategy from src/prefetch.mjs lines 46-65: the promise
built from its executor. -/
def linkPrefetchStrategy (env : Env) (net : NetBehavior) : SettleResult :=
  promiseOfExecutor (linkPrefetchExec env net)

/-- The request that xhrPrefetchStrategy issues: req.open("GET", url,
true) with req.withCredentials = true (src/prefetch.mjs lines 74-76). -/
structure XhrRequest where
  method : String
  url : String
  async : Bool
  withCredentials : Bool
deriving DecidableEq

/-- The XHR request as configured by xhrPrefetchStrategy. -/
def xhrOpenRequest (url : String) : XhrRequest :=
  ⟨"GET", url, true, true⟩

/-- xhrPrefetchStrategy from src/prefetch.mjs lines 72-88.  The only
handler registered is onload, which resolves on status 200 and rejects
on any other status.  On a transport failure the onload event never
fires and no onerror handler exists, so neither resolve nor reject is
ever called: the promise stays pending forever. -/
def xhrPrefetchStrategy (net : NetBehavior) : SettleResult :=
  match net with
  | NetBehavior.response status =>
      if status = 200 then SettleResult.resolved else SettleResult.rejected
  | NetBehavior.failure => SettleResult.pending

/-- fetch(url, credentials include) as used by highPriFetchStrategy
(src/prefetch.mjs line 106).  The Fetch API promise resolves whenever
an HTTP response arrives, regardless of its status code, and rejects
only on a transport-level failure. -/
def fetchCall (net : NetBehavior) : SettleResult :=
  match net with
  | NetBehavior.response _ => SettleResult.resolved
  | NetBehavior.failure => SettleResult.rejected

/-- Which of the three transports a dispatch actually invoked. -/
inductive StrategyKind where
  | link
  | xhr
  | fetchApi
deriving DecidableEq

/-- highPriFetchStrategy from src/prefetch.mjs lines 96-108: when
self.fetch is undefined fall back to the XHR strategy, otherwise call
fetch with credentials include.  The result is tagged with the
transport used. -/
def highPriFetchStrategy (env : Env) (net : NetBehavior) :
    StrategyKind × SettleResult :=
  if env.hasFetch = false then
    (StrategyKind.xhr, xhrPrefetchStrategy net)
  else
    (StrategyKind.fetchApi, fetchCall net)

/-- supportedPrefetchStrategy from src/prefetch.mjs lines 110-112: the
link strategy when support("prefetch") holds, the XHR strategy
otherwise.  The source computes this once at module load; the same
environment record is threaded here. -/
def supportedPrefetchStrategy (env : Env) (net : NetBehavior) :
    StrategyKind × SettleResult :=
  if support env "prefetch" = true then
    (StrategyKind.link, linkPrefetchStrategy env net)
  else
    (StrategyKind.xhr, xhrPrefetchStrategy net)

/-- The test priority && priority === "high" from src/prefetch.mjs line
137: an absent priority is falsy and takes the low-priority branch. -/
def isHigh : Option String → Bool
  | some p => p == "high"
  | none => false

/-- Observable outcome of one prefetcher call: the preFetched state
afterwards, which strategy (if any) was invoked and how its promise
settled, and whether the prefetcher promise itself fulfilled or is
stuck awaiting a never-settling strategy promise. -/
structure DispatchResult where
  preFetched : List String
  invoked : Option (StrategyKind × SettleResult)
  returned : AsyncReturn
deriving DecidableEq

/-- The strategy the try block of prefetcher selects (src/prefetch.mjs
lines 137-141): the high-priority strategy when priority is the string
high, the module-level supportedPrefetchStrategy otherwise. -/
def chosen (env : Env) (net : NetBehavior) (priority : Option String) :
    StrategyKind × SettleResult :=
  if isHigh priority then highPriFetchStrategy env net
  else supportedPrefetchStrategy env net

/-- The try block of prefetcher (src/prefetch.mjs lines 136-145): pick
the strategy by priority, await it; on resolution set preFetched[url],
on rejection fall into the empty catch and return normally, and on a
never-settling promise stay stuck with no state change. -/
def prefetcherTry (env : Env) (net : NetBehavior) (preFetched : List String)
    (url : String) (priority : Option String) : DispatchResult :=
  match chosen env net priority with
  | (k, SettleResult.resolved) =>
      ⟨preFetched ++ [url], some (k, SettleResult.resolved), AsyncReturn.fulfilled⟩
  | (k, SettleResult.rejected) =>
      ⟨preFetched, some (k, SettleResult.rejected), AsyncReturn.fulfilled⟩
  | (k, SettleResult.pending) =>
      ⟨preFetched, some (k, SettleResult.pending), AsyncReturn.stuck⟩

/-- prefetcher from src/prefetch.mjs lines 120-146.  Guard 1: a URL
already in preFetched returns at once.  Guard 2: when navigator exposes
connection information, an effective type containing "2g" (with the
undefined attribute defaulting to the empty string) or an enabled
saveData preference returns at once.  Otherwise the try block runs. -/
def prefetcher (env : Env) (net : NetBehavior) (preFetched : List String)
    (url : String) (priority : Option String) : DispatchResult :=
  if preFetched.contains url then
    ⟨preFetched, none, AsyncReturn.fulfilled⟩
  else
    match env.connection with
    | some conn =>
        if jsIncludes (conn.effectiveType.getD "") "2g" then
          ⟨preFetched, none, AsyncReturn.fulfilled⟩
        else if conn.saveData then
          ⟨preFetched, none, AsyncReturn.fulfilled⟩
        else
          prefetcherTry env net preFetched url priority
    | none => prefetcherTry env net preFetched url priority

/-- Guard 2 condition of prefetcher as a predicate of the environment:
connection information is exposed and reports a 2g-class effective type
or an enabled saveData preference. -/
def gatedEnv (env : Env) : Bool :=
  match env.connection with
  | some conn => jsIncludes (conn.effectiveType.getD "") "2g" || conn.saveData
  | none => false

/-!
Embedding of src/index.mjs.  The loaderFunctions Map is modelled by its
key set together with a log of the URLs handed to the Dispatcher: every
value stored in the Map is the loader closure determined by its key and
the configured priority, so the key set carries the whole Map state.
-/

/-- Scheduler state: the keys of the loaderFunctions Map, and the log of
URLs for which a loader has invoked the Dispatcher, in order. -/
structure SchedState where
  registry : List String
  dispatched : List String
deriving DecidableEq

/-- One intersection-observer entry as the callback reads it: its
isIntersecting flag and the href of its target element. -/
structure IOEntry where
  isIntersecting : Bool
  href : String
deriving DecidableEq

/-- Processing of a single intersecting entry by the observer callback
(src/index.mjs lines 24-30): when the URL has no live loaderFunctions
entry, return without effect; otherwise call the loader, which first
deletes its own entry (src/index.mjs line 72) and then invokes the
Dispatcher for its URL (line 73). -/
def processEntry (st : SchedState) (e : IOEntry) : SchedState :=
  if st.registry.contains e.href = false then
    st
  else
    ⟨st.registry.erase e.href, st.dispatched ++ [e.href]⟩

/-- The forEach loop over the intersecting entries of one batch. -/
def processEntries (st : SchedState) : List IOEntry → SchedState
  | [] => st
  | e :: es => processEntries (processEntry st e) es

/-- The intersection-observer callback of src/index.mjs lines 21-31:
filter the batch to the entries currently intersecting, then process
each in order. -/
def observerCallback (entries : List IOEntry) (st : SchedState) : SchedState :=
  processEntries st (entries.filter (fun e => e.isIntersecting))

/-- Map.prototype.set on the key set: a key already present keeps its
place (its value is overwritten, which the key-set model absorbs), a
new key is appended. -/
def mapSetKey (keys : List String) (k : String) : List String :=
  if keys.contains k then keys else keys ++ [k]

/-- The loader-generation loop of src/index.mjs lines 70-75: one
Map.set per URL of the scheduling pass. -/
def setKeys (keys : List String) : List String → List String
  | [] => keys
  | u :: us => setKeys (mapSetKey keys u) us

/-- Caller-supplied options of the entry point, before the merge with
defaults; the el field is modelled by the hrefs of the anchor elements
that querySelectorAll("a") would enumerate under it. -/
structure UserOptions where
  priority : Option String
  timeout : Option Nat
  urls : Option (List String)
  el : Option (List String)

/-- Options after the spread merge of src/index.mjs lines 47-55. -/
structure MergedOptions where
  priority : String
  timeout : Nat
  urls : Option (List String)
  el : List String
deriving DecidableEq

/-- The spread merge with defaults: priority low, timeout 2000, el
defaulting to the whole document, whose anchor hrefs are the
documentAnchors parameter. -/
def mergeOptions (documentAnchors : List String) (o : UserOptions) :
    MergedOptions :=
  ⟨o.priority.getD "low", o.timeout.getD 2000, o.urls, o.el.getD documentAnchors⟩

/-- One action of a scheduling pass, as observable outside: a URL
handed straight to the Dispatcher with a priority, or a link element
handed to observer.observe. -/
inductive PassAction where
  | dispatchUrl (url : String) (priority : String)
  | observeLink (href : String)
deriving DecidableEq

/-- The deferred unit of work of src/index.mjs lines 57-76.  With an
explicit urls list, each URL is handed to the Dispatcher with the
configured priority and the function returns, touching neither the
observer nor the registry.  Otherwise each anchor under el is observed
and one loader is registered per anchor href. -/
def schedulingPass (opts : MergedOptions) (st : SchedState) :
    List PassAction × SchedState :=
  match opts.urls with
  | some us =>
      (us.map (fun u => PassAction.dispatchUrl u opts.priority), st)
  | none =>
      (opts.el.map (fun h => PassAction.observeLink h),
        ⟨setKeys st.registry opts.el, st.dispatched⟩)

/-!
Concrete environments used by witnesses and counterexamples.
-/

/-- A runtime with no document, no connection information and no fetch
transport: the low-priority path selects the XHR strategy. -/
def envNoDoc : Env :=
  ⟨false, none, none, false, false, false⟩

/-- A full browser runtime: document with a head element, relList
reporting prefetch support, no connection information exposed, fetch
available. -/
def envFull : Env :=
  ⟨true, some (fun f => f == "prefetch"), none, true, true, false⟩

/-- A runtime with a document that reports prefetch support but has
neither a head element nor any element named "script": the link
strategy has no container to append to. -/
def envNoContainer : Env :=
  ⟨true, some (fun f => f == "prefetch"), none, false, false, false⟩

/-- A runtime on a slow-2g connection with saveData off. -/
def envSlow2g : Env :=
  ⟨true, some (fun f => f == "prefetch"), some ⟨some "slow-2g", false⟩, true, true, false⟩

/-- A runtime with the saveData preference enabled on a 4g connection. -/
def envSaveData : Env :=
  ⟨true, some (fun f => f == "prefetch"), some ⟨some "4g", true⟩, true, true, false⟩

/-!
Helper lemmas about the dispatcher.
-/

theorem contains_append_self (pf : List String) (url : String) :
    (pf ++ [url]).contains url = true := by
  simp [List.contains]

theorem prefetcherTry_invoked (env : Env) (net : NetBehavior) (pf : List String)
    (url : String) (p : Option String) :
    (prefetcherTry env net pf url p).invoked = some (chosen env net p) := by
  unfold prefetcherTry
  split <;> simp_all

theorem prefetcherTry_preFetched (env : Env) (net : NetBehavior) (pf : List String)
    (url : String) (p : Option String) :
    (prefetcherTry env net pf url p).preFetched =
      if (chosen env net p).2 = SettleResult.resolved then pf ++ [url] else pf := by
  unfold prefetcherTry
  split <;> simp_all

theorem prefetcherTry_returned (env : Env) (net : NetBehavior) (pf : List String)
    (url : String) (p : Option String) :
    (prefetcherTry env net pf url p).returned =
      if (chosen env net p).2 = SettleResult.pending then AsyncReturn.stuck
      else AsyncReturn.fulfilled := by
  unfold prefetcherTry
  split <;> simp_all

theorem prefetcher_guard1 (env : Env) (net : NetBehavior) (pf : List String)
    (url : String) (p : Option String) (h : pf.contains url = true) :
    prefetcher env net pf url p = ⟨pf, none, AsyncReturn.fulfilled⟩ := by
  unfold prefetcher
  rw [if_pos h]

theorem prefetcher_gated (env : Env) (net : NetBehavior) (pf : List String)
    (url : String) (p : Option String) (h : gatedEnv env = true) :
    prefetcher env net pf url p = ⟨pf, none, AsyncReturn.fulfilled⟩ := by
  unfold prefetcher
  unfold gatedEnv at h
  by_cases hc : pf.contains url = true
  · rw [if_pos hc]
  · rw [if_neg hc]
    cases henv : env.connection with
    | none => rw [henv] at h; cases h
    | some conn =>
        simp only [henv] at h ⊢
        cases hj : jsIncludes (conn.effectiveType.getD "") "2g" with
        | true => simp
        | false =>
            rw [hj] at h
            simp only [Bool.false_or] at h
            simp [h]

theorem prefetcher_ungated (env : Env) (net : NetBehavior) (pf : List String)
    (url : String) (p : Option String) (h1 : pf.contains url = false)
    (h2 : gatedEnv env = false) :
    prefetcher env net pf url p = prefetcherTry env net pf url p := by
  unfold prefetcher
  unfold gatedEnv at h2
  have hc : ¬ pf.contains url = true := by
    intro hh
    rw [h1] at hh
    exact Bool.false_ne_true hh
  rw [if_neg hc]
  cases henv : env.connection with
  | none => simp only [henv]
  | some conn =>
      rw [henv] at h2
      simp only [Bool.or_eq_false_iff] at h2
      simp only [henv]
      simp [h2.1, h2.2]

/-- C1: if a first dispatch of a URL completes with a successful
strategy outcome, a second sequential dispatch of the same URL returns
immediately with no side effect and invokes no strategy, so the two
calls together perform exactly one network strategy invocation. -/
theorem dedup_second_dispatch_noop (env env2 : Env) (net net2 : NetBehavior)
    (pf : List String) (url : String) (p p2 : Option String) (k : StrategyKind)
    (h : (prefetcher env net pf url p).invoked = some (k, SettleResult.resolved)) :
    prefetcher env2 net2 (prefetcher env net pf url p).preFetched url p2 =
      ⟨(prefetcher env net pf url p).preFetched, none, AsyncReturn.fulfilled⟩ ∧
    (prefetcher env2 net2 (prefetcher env net pf url p).preFetched url p2).invoked
      = none := by
  cases hc : pf.contains url with
  | true => rw [prefetcher_guard1 env net pf url p hc] at h; simp at h
  | false =>
    cases hg : gatedEnv env with
    | true => rw [prefetcher_gated env net pf url p hg] at h; simp at h
    | false =>
      rw [prefetcher_ungated env net pf url p hc hg] at h ⊢
      rw [prefetcherTry_invoked] at h
      have h2 := Option.some.inj h
      have hres : (chosen env net p).2 = SettleResult.resolved := by rw [h2]
      have hpf : (prefetcherTry env net pf url p).preFetched = pf ++ [url] := by
        rw [prefetcherTry_preFetched, hres]
        simp
      rw [hpf]
      refine ⟨prefetcher_guard1 env2 net2 (pf ++ [url]) url p2
        (contains_append_self pf url), ?_⟩
      rw [prefetcher_guard1 env2 net2 (pf ++ [url]) url p2
        (contains_append_self pf url)]

/-- Witness for C1 at a concrete input: a high-priority dispatch with
fetch available and a 200 response resolves, and the second dispatch is
then a no-op. -/
theorem dedup_second_dispatch_noop_witness :
    prefetcher envFull (NetBehavior.response 200)
        (prefetcher envFull (NetBehavior.response 200) [] "u" (some "high")).preFetched
        "u" (some "low") =
      ⟨(prefetcher envFull (NetBehavior.response 200) [] "u" (some "high")).preFetched,
        none, AsyncReturn.fulfilled⟩ ∧
    (prefetcher envFull (NetBehavior.response 200)
        (prefetcher envFull (NetBehavior.response 200) [] "u" (some "high")).preFetched
        "u" (some "low")).invoked = none :=
  dedup_second_dispatch_noop envFull envFull (NetBehavior.response 200)
    (NetBehavior.response 200) [] "u" (some "high") (some "low")
    StrategyKind.fetchApi (by decide)

/-- C2: with network information exposed and a 2g-class effective type
or an enabled saveData preference, a dispatch invokes no strategy,
leaves the preFetched state unchanged, and returns normally. -/
theorem gating_no_dispatch (env : Env) (net : NetBehavior) (pf : List String)
    (url : String) (p : Option String) (conn : Connection)
    (hc : env.connection = some conn)
    (h : jsIncludes (conn.effectiveType.getD "") "2g" = true ∨ conn.saveData = true) :
    prefetcher env net pf url p = ⟨pf, none, AsyncReturn.fulfilled⟩ := by
  apply prefetcher_gated
  unfold gatedEnv
  rw [hc]
  rcases h with h | h <;> simp [h]

/-- Witness for C2 at a concrete input: a slow-2g connection blocks the
dispatch of a fresh URL. -/
theorem gating_no_dispatch_witness :
    prefetcher envSlow2g (NetBehavior.response 200) [] "u" (some "low") =
      ⟨[], none, AsyncReturn.fulfilled⟩ :=
  gating_no_dispatch envSlow2g (NetBehavior.response 200) [] "u" (some "low")
    ⟨some "slow-2g", false⟩ rfl (Or.inl (by decide))

/-- C3: a dispatch whose strategy rejected leaves the URL out of the
preFetched set (it was not there before, so a later dispatch runs
strategy selection again) and returns normally, propagating nothing;
a dispatch whose strategy resolved has the URL in the set. -/
theorem failure_not_marked_and_swallowed (env : Env) (net : NetBehavior)
    (pf : List String) (url : String) (p : Option String) :
    ((prefetcher env net pf url p).invoked.map Prod.snd = some SettleResult.rejected →
      (prefetcher env net pf url p).preFetched = pf ∧
      pf.contains url = false ∧
      (prefetcher env net pf url p).returned = AsyncReturn.fulfilled) ∧
    ((prefetcher env net pf url p).invoked.map Prod.snd = some SettleResult.resolved →
      (prefetcher env net pf url p).preFetched.contains url = true) := by
  cases hc : pf.contains url with
  | true =>
      rw [prefetcher_guard1 env net pf url p hc]
      exact ⟨fun h => Option.noConfusion h, fun h => Option.noConfusion h⟩
  | false =>
    cases hg : gatedEnv env with
    | true =>
        rw [prefetcher_gated env net pf url p hg]
        exact ⟨fun h => Option.noConfusion h, fun h => Option.noConfusion h⟩
    | false =>
      rw [prefetcher_ungated env net pf url p hc hg]
      constructor
      · intro h
        rw [prefetcherTry_invoked] at h
        simp only [Option.map_some', Option.some.injEq] at h
        refine ⟨?_, rfl, ?_⟩
        · rw [prefetcherTry_preFetched, h]
          simp
        · rw [prefetcherTry_returned, h]
          simp
      · intro h
        rw [prefetcherTry_invoked] at h
        simp only [Option.map_some', Option.some.injEq] at h
        rw [prefetcherTry_preFetched, h]
        simp [contains_append_self]

/-- Witness for C3 at a concrete input: an XHR strategy rejecting on a
404 response leaves the state unchanged and the call fulfilled. -/
theorem failure_not_marked_and_swallowed_witness :
    (prefetcher envNoDoc (NetBehavior.response 404) [] "u" none).preFetched = [] ∧
    ([] : List String).contains "u" = false ∧
    (prefetcher envNoDoc (NetBehavior.response 404) [] "u" none).returned
      = AsyncReturn.fulfilled :=
  (failure_not_marked_and_swallowed envNoDoc (NetBehavior.response 404)
    [] "u" none).1 (by decide)

theorem contains_append_left (pf : List String) (v w : String)
    (h : pf.contains v = true) : (pf ++ [w]).contains v = true := by
  simp [List.contains] at h ⊢
  exact Or.inl h

/-- C4 is false as stated: a URL handed to a fetch strategy whose
outcome is a rejection is not in the preFetched set afterwards, so the
entry is not added optimistically before the outcome is awaited. -/
theorem prefetchedSet_optimistic_counterexample :
    (prefetcher envNoDoc (NetBehavior.response 404) [] "u" none).invoked
        = some (StrategyKind.xhr, SettleResult.rejected) ∧
    (prefetcher envNoDoc (NetBehavior.response 404) [] "u" none).preFetched.contains "u"
        = false := by decide

/-- C4 (amended): the preFetched set is append-only (every member
survives any dispatch), and a URL handed to a fetch strategy is a
member afterwards exactly when the awaited outcome was a success; the
entry is recorded after the outcome, not optimistically before it. -/
theorem prefetchedSet_append_only_success_only (env : Env) (net : NetBehavior)
    (pf : List String) (url : String) (p : Option String) :
    (∀ v, pf.contains v = true →
      (prefetcher env net pf url p).preFetched.contains v = true) ∧
    (∀ k o, (prefetcher env net pf url p).invoked = some (k, o) →
      ((prefetcher env net pf url p).preFetched.contains url = true ↔
        o = SettleResult.resolved)) := by
  cases hc : pf.contains url with
  | true =>
      rw [prefetcher_guard1 env net pf url p hc]
      exact ⟨fun v hv => hv, fun k o h => Option.noConfusion h⟩
  | false =>
    cases hg : gatedEnv env with
    | true =>
        rw [prefetcher_gated env net pf url p hg]
        exact ⟨fun v hv => hv, fun k o h => Option.noConfusion h⟩
    | false =>
      rw [prefetcher_ungated env net pf url p hc hg]
      constructor
      · intro v hv
        rw [prefetcherTry_preFetched]
        by_cases hres : (chosen env net p).2 = SettleResult.resolved
        · rw [if_pos hres]
          exact contains_append_left pf v url hv
        · rw [if_neg hres]
          exact hv
      · intro k o h
        rw [prefetcherTry_invoked] at h
        have h2 := Option.some.inj h
        have ho : (chosen env net p).2 = o := by rw [h2]
        rw [prefetcherTry_preFetched, ho]
        have hm : url ∉ pf := by
          simp [List.contains] at hc
          exact hc
        cases o with
        | resolved => simp [contains_append_self]
        | rejected => simp [hm]
        | pending => simp [hm]

/-- Witness for the amended C4 at a concrete input: a prior member
survives a successful dispatch, and the dispatched URL joins the set
because the outcome resolved. -/
theorem prefetchedSet_append_only_success_only_witness :
    (prefetcher envFull (NetBehavior.response 200) ["a"] "u" (some "high")).preFetched.contains "a" = true ∧
    ((prefetcher envFull (NetBehavior.response 200) ["a"] "u" (some "high")).preFetched.contains "u" = true ↔
      SettleResult.resolved = SettleResult.resolved) :=
  ⟨(prefetchedSet_append_only_success_only envFull (NetBehavior.response 200)
      ["a"] "u" (some "high")).1 "a" (by decide),
   (prefetchedSet_append_only_success_only envFull (NetBehavior.response 200)
      ["a"] "u" (some "high")).2 StrategyKind.fetchApi SettleResult.resolved (by decide)⟩

/-- C5 is false as stated: on a transport-level network error the XHR
strategy promise stays pending forever, because only an onload handler
is registered; it neither rejects nor resolves. -/
theorem xhr_transport_error_counterexample :
    xhrPrefetchStrategy NetBehavior.failure = SettleResult.pending ∧
    SettleResult.pending ≠ SettleResult.rejected ∧
    SettleResult.pending ≠ SettleResult.resolved := by decide

/-- C5 (amended): the XHR strategy issues a GET request with
credentials included, resolves exactly when the HTTP status is 200 and
rejects on any other status; on a transport-level network error it
never settles. -/
theorem xhr_strategy_contract (url : String) (net : NetBehavior) :
    (xhrOpenRequest url).method = "GET" ∧
    (xhrOpenRequest url).withCredentials = true ∧
    (xhrPrefetchStrategy net = SettleResult.resolved ↔ net = NetBehavior.response 200) ∧
    (∀ s, s ≠ 200 → xhrPrefetchStrategy (NetBehavior.response s) = SettleResult.rejected) ∧
    xhrPrefetchStrategy NetBehavior.failure = SettleResult.pending := by
  refine ⟨rfl, rfl, ?_, ?_, rfl⟩
  · cases net with
    | response s =>
        simp only [xhrPrefetchStrategy]
        by_cases hs : s = 200
        · subst hs
          simp
        · rw [if_neg hs]
          simp [hs]
    | failure => simp [xhrPrefetchStrategy]
  · intro s hs
    simp only [xhrPrefetchStrategy]
    rw [if_neg hs]

/-- Witness for the amended C5 at a concrete input: a 404 response
makes the XHR strategy reject. -/
theorem xhr_strategy_contract_witness :
    xhrPrefetchStrategy (NetBehavior.response 404) = SettleResult.rejected :=
  (xhr_strategy_contract "u" (NetBehavior.response 404)).2.2.2.1 404 (by decide)

/-- C6: past both guards, priority high invokes the fetch transport
whenever it exists and XHR when it does not, regardless of prefetch
support; low priority invokes the link strategy when the capability
probe reports prefetch support and XHR when it does not. -/
theorem strategy_selection (env : Env) (net : NetBehavior) (pf : List String)
    (url : String) (p : Option String)
    (h1 : pf.contains url = false) (h2 : gatedEnv env = false) :
    (isHigh p = true → env.hasFetch = true →
      (prefetcher env net pf url p).invoked.map Prod.fst = some StrategyKind.fetchApi) ∧
    (isHigh p = true → env.hasFetch = false →
      (prefetcher env net pf url p).invoked.map Prod.fst = some StrategyKind.xhr) ∧
    (isHigh p = false → support env "prefetch" = true →
      (prefetcher env net pf url p).invoked.map Prod.fst = some StrategyKind.link) ∧
    (isHigh p = false → support env "prefetch" = false →
      (prefetcher env net pf url p).invoked.map Prod.fst = some StrategyKind.xhr) := by
  rw [prefetcher_ungated env net pf url p h1 h2, prefetcherTry_invoked]
  unfold chosen highPriFetchStrategy supportedPrefetchStrategy
  refine ⟨?_, ?_, ?_, ?_⟩ <;> intro ha hb <;> simp [ha, hb]

/-- Witness for C6 at a concrete input: high priority with fetch
available uses the fetch transport. -/
theorem strategy_selection_witness :
    (prefetcher envFull (NetBehavior.response 200) [] "u" (some "high")).invoked.map
        Prod.fst = some StrategyKind.fetchApi :=
  (strategy_selection envFull (NetBehavior.response 200) [] "u" (some "high")
    (by decide) (by decide)).1 (by decide) (by decide)

/-- C10: with the fetch transport available, a high-priority dispatch
past both guards resolves on any HTTP response status whatsoever, marks
the URL prefetched, and turns every later dispatch of that URL into a
no-op. -/
theorem highpri_marks_on_any_response (env : Env) (pf : List String)
    (url : String) (p : Option String) (s : Nat)
    (hf : env.hasFetch = true) (hp : isHigh p = true)
    (h1 : pf.contains url = false) (h2 : gatedEnv env = false) :
    (prefetcher env (NetBehavior.response s) pf url p).invoked
        = some (StrategyKind.fetchApi, SettleResult.resolved) ∧
    (prefetcher env (NetBehavior.response s) pf url p).preFetched.contains url = true ∧
    (∀ env2 net2 p2,
      prefetcher env2 net2
          (prefetcher env (NetBehavior.response s) pf url p).preFetched url p2 =
        ⟨(prefetcher env (NetBehavior.response s) pf url p).preFetched, none,
          AsyncReturn.fulfilled⟩) := by
  rw [prefetcher_ungated env (NetBehavior.response s) pf url p h1 h2]
  have hch : chosen env (NetBehavior.response s) p
      = (StrategyKind.fetchApi, SettleResult.resolved) := by
    unfold chosen highPriFetchStrategy fetchCall
    simp [hp, hf]
  have hpf : (prefetcherTry env (NetBehavior.response s) pf url p).preFetched
      = pf ++ [url] := by
    rw [prefetcherTry_preFetched, hch]
    simp
  refine ⟨?_, ?_, ?_⟩
  · rw [prefetcherTry_invoked, hch]
  · rw [hpf]
    exact contains_append_self pf url
  · intro env2 net2 p2
    rw [hpf]
    exact prefetcher_guard1 env2 net2 (pf ++ [url]) url p2 (contains_append_self pf url)

/-- Witness for C10 at a concrete input: a 404 response still marks the
URL prefetched under high priority, and a later dispatch is a no-op. -/
theorem highpri_marks_on_any_response_witness :
    (prefetcher envFull (NetBehavior.response 404) [] "u" (some "high")).invoked
        = some (StrategyKind.fetchApi, SettleResult.resolved) ∧
    (prefetcher envFull (NetBehavior.response 404) [] "u" (some "high")).preFetched.contains "u" = true ∧
    prefetcher envFull (NetBehavior.response 200)
        (prefetcher envFull (NetBehavior.response 404) [] "u" (some "high")).preFetched
        "u" none =
      ⟨(prefetcher envFull (NetBehavior.response 404) [] "u" (some "high")).preFetched,
        none, AsyncReturn.fulfilled⟩ :=
  ⟨(highpri_marks_on_any_response envFull [] "u" (some "high") 404
      (by decide) (by decide) (by decide) (by decide)).1,
   (highpri_marks_on_any_response envFull [] "u" (some "high") 404
      (by decide) (by decide) (by decide) (by decide)).2.1,
   (highpri_marks_on_any_response envFull [] "u" (some "high") 404
      (by decide) (by decide) (by decide) (by decide)).2.2 envFull
      (NetBehavior.response 200) none⟩

/-!
Lemmas about the loader registry and the observer callback.
-/

theorem nodup_count_le_one (l : List String) (h : l.Nodup) (u : String) :
    l.count u ≤ 1 := by
  induction l with
  | nil => simp
  | cons a l ih =>
      rcases List.nodup_cons.mp h with ⟨ha, hl⟩
      rw [List.count_cons]
      by_cases hu : u = a
      · subst hu
        have h0 : l.count u = 0 := List.count_eq_zero.mpr ha
        simp [h0]
      · have hne : (a == u) = false := beq_eq_false_iff_ne.mpr (fun hh => hu hh.symm)
        rw [hne]
        simpa using ih hl

theorem setKeys_nodup (urls : List String) (keys : List String) (h : keys.Nodup) :
    (setKeys keys urls).Nodup := by
  induction urls generalizing keys with
  | nil => exact h
  | cons u us ih =>
      apply ih
      unfold mapSetKey
      by_cases hc : keys.contains u = true
      · rw [if_pos hc]
        exact h
      · rw [if_neg hc]
        have hm : u ∉ keys := by
          simp [List.contains] at hc
          exact hc
        rw [← List.concat_eq_append]
        exact List.Nodup.concat hm h

theorem processEntry_sum (st : SchedState) (e : IOEntry) (u : String) :
    (processEntry st e).dispatched.count u + (processEntry st e).registry.count u
      = st.dispatched.count u + st.registry.count u := by
  unfold processEntry
  by_cases hc : st.registry.contains e.href = false
  · rw [if_pos hc]
  · rw [if_neg hc]
    show (st.dispatched ++ [e.href]).count u + (st.registry.erase e.href).count u
        = st.dispatched.count u + st.registry.count u
    by_cases hu : e.href = u
    · subst hu
      have hmem : e.href ∈ st.registry := by
        cases hcc : st.registry.contains e.href with
        | false => exact absurd hcc hc
        | true =>
            simp [List.contains] at hcc
            exact hcc
      have hpos : 1 ≤ st.registry.count e.href := List.one_le_count_iff.mpr hmem
      rw [List.count_append, List.count_singleton_self, List.count_erase_self]
      omega
    · have h1 : List.count u [e.href] = 0 := by
        rw [List.count_singleton]
        have hne : (e.href == u) = false := beq_eq_false_iff_ne.mpr hu
        rw [hne]
        rfl
      have h2 : (st.registry.erase e.href).count u = st.registry.count u :=
        List.count_erase_of_ne (fun hh => hu hh.symm) st.registry
      rw [List.count_append, h1, h2]
      omega

theorem processEntries_sum (es : List IOEntry) (st : SchedState) (u : String) :
    (processEntries st es).dispatched.count u + (processEntries st es).registry.count u
      = st.dispatched.count u + st.registry.count u := by
  induction es generalizing st with
  | nil => rfl
  | cons e es ih =>
      show (processEntries (processEntry st e) es).dispatched.count u
          + (processEntries (processEntry st e) es).registry.count u
          = st.dispatched.count u + st.registry.count u
      rw [ih (processEntry st e), processEntry_sum]

theorem processEntry_dispatched_mono (st : SchedState) (e : IOEntry) (u : String) :
    st.dispatched.count u ≤ (processEntry st e).dispatched.count u := by
  unfold processEntry
  by_cases hc : st.registry.contains e.href = false
  · rw [if_pos hc]
  · rw [if_neg hc]
    show st.dispatched.count u ≤ (st.dispatched ++ [e.href]).count u
    rw [List.count_append]
    omega

theorem processEntries_dispatched_mono (es : List IOEntry) (st : SchedState)
    (u : String) :
    st.dispatched.count u ≤ (processEntries st es).dispatched.count u := by
  induction es generalizing st with
  | nil => exact Nat.le_refl _
  | cons e es ih =>
      exact Nat.le_trans (processEntry_dispatched_mono st e u) (ih (processEntry st e))

theorem processEntry_nodup (st : SchedState) (e : IOEntry)
    (h : st.registry.Nodup) : (processEntry st e).registry.Nodup := by
  unfold processEntry
  by_cases hc : st.registry.contains e.href = false
  · rw [if_pos hc]
    exact h
  · rw [if_neg hc]
    exact h.erase e.href

theorem processEntries_nodup (es : List IOEntry) (st : SchedState)
    (h : st.registry.Nodup) : (processEntries st es).registry.Nodup := by
  induction es generalizing st with
  | nil => exact h
  | cons e es ih => exact ih (processEntry st e) (processEntry_nodup st e h)

/-- C7: starting from a registry with at most one live entry per URL,
a registration pass keeps the registry free of duplicate keys, the
observer callback keeps it so, one batch of intersection notifications
invokes the Dispatcher at most once more per URL however often the
notification repeats, and notifications for a URL with no live entry
are no-ops. -/
theorem registry_consumed_once (st : SchedState) (urls : List String)
    (entries : List IOEntry) (u : String) (h : st.registry.Nodup) :
    (setKeys st.registry urls).Nodup ∧
    (observerCallback entries st).registry.Nodup ∧
    (observerCallback entries st).dispatched.count u ≤ st.dispatched.count u + 1 ∧
    (st.registry.count u = 0 →
      (observerCallback entries st).dispatched.count u = st.dispatched.count u ∧
      (observerCallback entries st).registry.count u = 0) := by
  refine ⟨setKeys_nodup urls st.registry h,
    processEntries_nodup (entries.filter (fun e => e.isIntersecting)) st h, ?_, ?_⟩
  · have hsum := processEntries_sum (entries.filter (fun e => e.isIntersecting)) st u
    have hr : st.registry.count u ≤ 1 := nodup_count_le_one st.registry h u
    unfold observerCallback
    omega
  · intro h0
    have hsum := processEntries_sum (entries.filter (fun e => e.isIntersecting)) st u
    have hmono := processEntries_dispatched_mono
      (entries.filter (fun e => e.isIntersecting)) st u
    unfold observerCallback
    omega

/-- Witness for C7 at a concrete input: registering a URL twice keeps
one entry, and a batch notifying the same element twice dispatches at
most once. -/
theorem registry_consumed_once_witness :
    (setKeys ["a"] ["a", "a", "b"]).Nodup ∧
    (observerCallback [⟨true, "a"⟩, ⟨true, "a"⟩] ⟨["a"], []⟩).registry.Nodup ∧
    (observerCallback [⟨true, "a"⟩, ⟨true, "a"⟩] ⟨["a"], []⟩).dispatched.count "a"
      ≤ ([] : List String).count "a" + 1 :=
  ⟨(registry_consumed_once ⟨["a"], []⟩ ["a", "a", "b"]
      [⟨true, "a"⟩, ⟨true, "a"⟩] "a" (by decide)).1,
   (registry_consumed_once ⟨["a"], []⟩ ["a", "a", "b"]
      [⟨true, "a"⟩, ⟨true, "a"⟩] "a" (by decide)).2.1,
   (registry_consumed_once ⟨["a"], []⟩ ["a", "a", "b"]
      [⟨true, "a"⟩, ⟨true, "a"⟩] "a" (by decide)).2.2.1⟩

theorem count_map_dispatch (us : List String) (pri : String) (v : String) :
    (us.map (fun u => PassAction.dispatchUrl u pri)).count
      (PassAction.dispatchUrl v pri) = us.count v := by
  induction us with
  | nil => rfl
  | cons a l ih =>
      rw [List.map_cons, List.count_cons, List.count_cons, ih]
      by_cases hv : a = v
      · subst hv
        simp
      · have ha : (a == v) = false := beq_eq_false_iff_ne.mpr hv
        have hb : (PassAction.dispatchUrl a pri == PassAction.dispatchUrl v pri)
            = false := beq_eq_false_iff_ne.mpr (by simp [hv])
        rw [ha, hb]

/-- C8: with an explicit urls list supplied, the scheduling pass hands
exactly the URLs of the list to the Dispatcher, once per list element,
with the configured priority; it performs no viewport observation and
leaves the loader registry and dispatch log untouched; and the scope
is ignored: any other scope yields the identical pass. -/
theorem urls_bypass (docAnchors : List String) (o : UserOptions)
    (us : List String) (st : SchedState) (h : o.urls = some us) :
    (schedulingPass (mergeOptions docAnchors o) st).1
      = us.map (fun u => PassAction.dispatchUrl u (mergeOptions docAnchors o).priority) ∧
    (∀ v, (schedulingPass (mergeOptions docAnchors o) st).1.count
        (PassAction.dispatchUrl v (mergeOptions docAnchors o).priority) = us.count v) ∧
    (∀ href, PassAction.observeLink href ∉ (schedulingPass (mergeOptions docAnchors o) st).1) ∧
    (schedulingPass (mergeOptions docAnchors o) st).2 = st ∧
    (∀ el2, schedulingPass (mergeOptions docAnchors ⟨o.priority, o.timeout, o.urls, el2⟩) st
      = schedulingPass (mergeOptions docAnchors o) st) := by
  simp only [mergeOptions, schedulingPass, h]
  refine ⟨trivial, fun v => ?_, fun href => ?_, trivial, fun el2 => trivial⟩
  · exact count_map_dispatch us (o.priority.getD "low") v
  · simp

/-- Witness for C8 at a concrete input: the two listed URLs are each
dispatched once with low priority, nothing is observed, and the state
is untouched. -/
theorem urls_bypass_witness :
    (schedulingPass (mergeOptions ["/a"] ⟨none, none, some ["/a", "/b"], some ["/a"]⟩) ⟨[], []⟩).1
      = ["/a", "/b"].map (fun u => PassAction.dispatchUrl u
          (mergeOptions ["/a"] ⟨none, none, some ["/a", "/b"], some ["/a"]⟩).priority) ∧
    (schedulingPass (mergeOptions ["/a"] ⟨none, none, some ["/a", "/b"], some ["/a"]⟩) ⟨[], []⟩).1.count
        (PassAction.dispatchUrl "/a"
          (mergeOptions ["/a"] ⟨none, none, some ["/a", "/b"], some ["/a"]⟩).priority)
      = (["/a", "/b"] : List String).count "/a" ∧
    (schedulingPass (mergeOptions ["/a"] ⟨none, none, some ["/a", "/b"], some ["/a"]⟩) ⟨[], []⟩).2
      = ⟨[], []⟩ :=
  ⟨(urls_bypass ["/a"] ⟨none, none, some ["/a", "/b"], some ["/a"]⟩
      ["/a", "/b"] ⟨[], []⟩ rfl).1,
   (urls_bypass ["/a"] ⟨none, none, some ["/a", "/b"], some ["/a"]⟩
      ["/a", "/b"] ⟨[], []⟩ rfl).2.1 "/a",
   (urls_bypass ["/a"] ⟨none, none, some ["/a", "/b"], some ["/a"]⟩
      ["/a", "/b"] ⟨[], []⟩ rfl).2.2.2.1⟩

/-- C9 is false as stated: in a document with neither a head element
nor a fallback container, the TypeError thrown inside the promise
executor rejects the strategy promise per ECMA-262 executor semantics,
and the dispatcher catch swallows it; the dispatch call returns
fulfilled, so no uncaught fault is visible outside the Dispatcher. -/
theorem config_error_counterexample :
    linkPrefetchExec envNoContainer (NetBehavior.response 200) = ExecOutcome.throwErr ∧
    (prefetcher envNoContainer (NetBehavior.response 200) [] "u" none).invoked
        = some (StrategyKind.link, SettleResult.rejected) ∧
    (prefetcher envNoContainer (NetBehavior.response 200) [] "u" none).returned
        = AsyncReturn.fulfilled := by decide

/-- C9 (amended): when the native link strategy runs in a document with
no head element and no fallback container, the executor throw becomes a
promise rejection which the Dispatcher swallows exactly like a
transport failure: the dispatch returns normally, no error escapes, and
the URL is not marked prefetched. -/
theorem config_error_swallowed (env : Env) (net : NetBehavior) (pf : List String)
    (url : String) (p : Option String)
    (hd : env.hasDocument = true) (hh : env.hasHead = false)
    (hs : env.hasElementNamedScript = false)
    (hsup : support env "prefetch" = true) (hp : isHigh p = false)
    (h1 : pf.contains url = false) (h2 : gatedEnv env = false) :
    prefetcher env net pf url p =
      ⟨pf, some (StrategyKind.link, SettleResult.rejected), AsyncReturn.fulfilled⟩ := by
  rw [prefetcher_ungated env net pf url p h1 h2]
  have hch : chosen env net p = (StrategyKind.link, SettleResult.rejected) := by
    simp [chosen, supportedPrefetchStrategy, linkPrefetchStrategy, linkPrefetchExec,
      promiseOfExecutor, hp, hsup, hd, hh, hs]
  unfold prefetcherTry
  rw [hch]

/-- Witness for the amended C9 at a concrete input. -/
theorem config_error_swallowed_witness :
    prefetcher envNoContainer NetBehavior.failure [] "u" none =
      ⟨[], some (StrategyKind.link, SettleResult.rejected), AsyncReturn.fulfilled⟩ :=
  config_error_swallowed envNoContainer NetBehavior.failure [] "u" none
    rfl rfl rfl (by decide) rfl (by decide) (by decide)
